import Mathlib

/-!
Shallow embedding of the Prometheus waste-to-fuel calculation core:
the waste-stream simulator (`runSimulation` / `handleWasteChange`), the
process optimizer (`runOptimization`), and the dashboard projection and
alert logic (`updateMetrics`). JavaScript numbers are idealised as exact
rationals; the IEEE-754 special values NaN and ±Infinity that arise from
division by zero are modelled explicitly by `JSNum`, since the source
contains unguarded divisions.
-/

namespace Prometheus

/-- Result of a JavaScript arithmetic expression: a finite number
(idealised as a rational) or one of the IEEE-754 special values that a
division by zero produces. -/
inductive JSNum where
  | fin (q : ℚ)
  | nan
  | posInf
  | negInf
  deriving DecidableEq

/-- JavaScript division `a / b` of two finite numbers: `0/0` is NaN and
`a/0` for nonzero `a` is a signed infinity. -/
def jsDiv (a b : ℚ) : JSNum :=
  if b = 0 then
    if a = 0 then JSNum.nan
    else if a > 0 then JSNum.posInf
    else JSNum.negInf
  else JSNum.fin (a / b)

/-- JavaScript multiplication of a possibly-special number by a finite
constant: NaN propagates, an infinity keeps or flips its sign with the
sign of the constant, and `Infinity * 0` is NaN. -/
def JSNum.mulFin : JSNum → ℚ → JSNum
  | JSNum.fin q, k => JSNum.fin (q * k)
  | JSNum.nan, _ => JSNum.nan
  | JSNum.posInf, k =>
      if k > 0 then JSNum.posInf else if k < 0 then JSNum.negInf else JSNum.nan
  | JSNum.negInf, k =>
      if k > 0 then JSNum.negInf else if k < 0 then JSNum.posInf else JSNum.nan

/-- JavaScript `Math.min(c, s)` with a finite first argument: NaN
propagates, `min(c, Infinity) = c`, `min(c, -Infinity) = -Infinity`. -/
def jsMin (c : ℚ) : JSNum → JSNum
  | JSNum.fin q => JSNum.fin (min c q)
  | JSNum.nan => JSNum.nan
  | JSNum.posInf => JSNum.fin c
  | JSNum.negInf => JSNum.negInf

/-- JavaScript comparison `s > c` with a finite right operand: any
comparison against NaN is false. -/
def JSNum.gtConst : JSNum → ℚ → Bool
  | JSNum.fin q, c => decide (q > c)
  | JSNum.nan, _ => false
  | JSNum.posInf, _ => true
  | JSNum.negInf, _ => false

/-- `s` is a finite number lying in the closed interval `[lo, hi]`. -/
def JSNum.isFinIn (s : JSNum) (lo hi : ℚ) : Prop :=
  match s with
  | JSNum.fin q => lo ≤ q ∧ q ≤ hi
  | _ => False

/-- The five waste material categories of the `wasteComposition` object. -/
inductive Category where
  | polymers
  | packaging
  | structuralResidues
  | organics
  | metals
  deriving DecidableEq

open Category

/-- Insertion order of the composition object's keys, the order
`Object.entries` iterates them in `runSimulation`. -/
def categories : List Category :=
  [polymers, packaging, structuralResidues, organics, metals]

/-- A waste composition: percentage by category. Totality over
`Category` models the JavaScript object always carrying all five keys. -/
def WasteComposition : Type := Category → ℚ

/-- Plasma decomposition efficiency by waste type (`decompositionRates`). -/
def decompositionRates : Category → ℚ
  | polymers => 0.85
  | packaging => 0.78
  | structuralResidues => 0.65
  | organics => 0.92
  | metals => 0.45

/-- Energy requirements in kWh per kg (`energyRequirements`). -/
def energyRequirements : Category → ℚ
  | polymers => 2.3
  | packaging => 1.8
  | structuralResidues => 3.1
  | organics => 1.2
  | metals => 4.5

/-- Accumulator of the `forEach` loop in `runSimulation`: the four
running totals. -/
structure DecompTotals where
  energy : ℚ
  methane : ℚ
  carbon : ℚ
  hydrogen : ℚ

/-- One iteration of the `forEach` loop in `runSimulation`:
`wasteAmount = (percentage / 100) * 100` (100 kg total assumed),
`decomposed = wasteAmount * decompositionRates[type]`, then the four
accumulations with yield fractions 0.4, 0.3 and 0.15. -/
def decompStep (comp : WasteComposition) (acc : DecompTotals) (c : Category) :
    DecompTotals :=
  let wasteAmount := comp c / 100 * 100
  let decomposed := wasteAmount * decompositionRates c
  { energy := acc.energy + wasteAmount * energyRequirements c
    methane := acc.methane + decomposed * 0.4
    carbon := acc.carbon + decomposed * 0.3
    hydrogen := acc.hydrogen + decomposed * 0.15 }

/-- The record assembled by `runSimulation`'s `setSimulation` call
(before display formatting). The two ratio-derived fields are `JSNum`
because their computation divides by a possibly-zero total. -/
structure SimulationResult where
  energyNeeds : ℚ
  methaneOutput : ℚ
  carbonProduction : ℚ
  hydrogenOutput : ℚ
  sustainabilityScore : JSNum
  cycleEfficiency : JSNum

/-- The calculation core of `runSimulation`: fold the decomposition loop
over the five categories, then
`cycleEfficiency = (methane * 50 + hydrogen * 120) / energyNeeds`
(an unguarded JavaScript division) and
`sustainabilityScore = Math.min(100, cycleEfficiency * 1.2)`. -/
def simulateDecomposition (comp : WasteComposition) : SimulationResult :=
  let totals := categories.foldl (decompStep comp)
    { energy := 0, methane := 0, carbon := 0, hydrogen := 0 }
  let cycleEfficiency := jsDiv (totals.methane * 50 + totals.hydrogen * 120) totals.energy
  let sustainabilityScore := jsMin 100 (cycleEfficiency.mulFin 1.2)
  { energyNeeds := totals.energy
    methaneOutput := totals.methane
    carbonProduction := totals.carbon
    hydrogenOutput := totals.hydrogen
    sustainabilityScore := sustainabilityScore
    cycleEfficiency := cycleEfficiency }

/-- The composition held in the simulator's initial state. -/
def defaultWasteComposition : WasteComposition
  | polymers => 35
  | packaging => 25
  | structuralResidues => 20
  | organics => 15
  | metals => 5

/-- The all-zero waste composition. -/
def zeroComposition : WasteComposition := fun _ => 0

/-- The clamping expression of `handleWasteChange`:
`Math.max(0, Math.min(100, parseFloat(value) || 0))`. A `none` input
models a value whose `parseFloat` is NaN (non-numeric or missing), which
`|| 0` turns into 0 before the clamp. -/
def clampWasteValue (v : Option ℚ) : ℚ :=
  max 0 (min 100 (v.getD 0))

/-- `handleWasteChange`: spread the previous composition and overwrite
the one changed category with its clamped value. -/
def handleWasteChange (prev : WasteComposition) (c : Category) (v : Option ℚ) :
    WasteComposition :=
  fun c' => if c' = c then clampWasteValue v else prev c'

/-- The composition normalizer of spec §4.1: every stored value passes
through `handleWasteChange`'s clamp, so normalising a raw mapping applies
`clampWasteValue` categorywise; totality over `Category` models the
contract that all five categories stay present. -/
def normalize (raw : Category → Option ℚ) : WasteComposition :=
  fun c => clampWasteValue (raw c)

/-- The process parameters state of the optimizer component. -/
structure ProcessParameters where
  temperature : ℚ
  flowRate : ℚ
  catalystEfficiency : ℚ
  energyInput : ℚ
  pressure : ℚ

/-- The four diagnostic outcomes of the optimizer's prediction chain. -/
inductive Prediction where
  | highTempWarning
  | lowCatalystAlert
  | optimal
  | suboptimal
  deriving DecidableEq

/-- The exact message string the source assigns for each outcome. -/
def predictionMessage : Prediction → String
  | Prediction.highTempWarning =>
      "WARNING: High temperature detected. Catalyst fouling likely in 12-15 hours."
  | Prediction.lowCatalystAlert =>
      "ALERT: Catalyst efficiency below optimal. Recommend maintenance cycle."
  | Prediction.optimal =>
      "OPTIMAL: System operating at peak efficiency. Methane production maximized."
  | Prediction.suboptimal =>
      "SUBOPTIMAL: Adjusting parameters for improved yield. Efficiency can be increased by 15%."

/-- The record assembled by `runOptimization`'s final `setOptimization`
call. `efficiency` is `JSNum` because its computation divides by a
possibly-zero `powerConsumption`. -/
structure OptimizationResult where
  methaneYield : ℚ
  powerConsumption : ℚ
  efficiency : JSNum
  prediction : Prediction
  statusLabel : String

/-- The calculation core of `runOptimization`. The three `Math.random()`
draws are passed in as explicit arguments `rand1 rand2 rand3`; the source
binds them to `tempOptimal`, `flowOptimal` and `catalystOptimal`, which
are never read afterwards. Then
`methaneYield = (temperature/1200) * (flowRate/100) * (catalystEfficiency/100) * 85`,
`powerConsumption = energyInput * (1 - (catalystEfficiency/100) * 0.3)`,
`efficiency = (methaneYield / powerConsumption) * 100` (unguarded
division), and the cascading if/else prediction chain. -/
def runOptimization (p : ProcessParameters) (rand1 rand2 rand3 : ℚ) :
    OptimizationResult :=
  let tempOptimal := 1150 + rand1 * 100
  let flowOptimal := 80 + rand2 * 20
  let catalystOptimal := 88 + rand3 * 12
  let methaneYield := p.temperature / 1200 * (p.flowRate / 100) *
    (p.catalystEfficiency / 100) * 85
  let powerConsumption := p.energyInput * (1 - p.catalystEfficiency / 100 * 0.3)
  let efficiency := (jsDiv methaneYield powerConsumption).mulFin 100
  let prediction :=
    if p.temperature > 1300 then Prediction.highTempWarning
    else if p.catalystEfficiency < 85 then Prediction.lowCatalystAlert
    else if efficiency.gtConst 75 then Prediction.optimal
    else Prediction.suboptimal
  { methaneYield := methaneYield
    powerConsumption := powerConsumption
    efficiency := efficiency
    prediction := prediction
    statusLabel := "Optimization Complete" }

/-- The daily baseline sample the dashboard's `updateMetrics` derives its
projections from (`baseWaste`, `baseMethane`, `basePower`, `efficiency`). -/
structure Baseline where
  waste : ℚ
  methane : ℚ
  power : ℚ
  efficiency : ℚ

/-- One projected period (`year1` / `year2` / `year3` record). -/
structure YearProjection where
  waste : ℚ
  methane : ℚ
  power : ℚ
  efficiency : ℚ

/-- The three-period projection record built by `setProjections`. -/
structure Projections where
  year1 : YearProjection
  year2 : YearProjection
  year3 : YearProjection

/-- `scalingFactor = crewSize / 4` — base calculations are for 4 crew. -/
def scalingFactor (crewSize : ℚ) : ℚ := crewSize / 4

/-- The projection block of `updateMetrics`, with the crew size (the
source fixes `crewSize = 6`) kept as an argument of the formulas:
period 1 is `base * 365 * scalingFactor / 1000` and a `0.95` efficiency
drift, periods 2 and 3 apply the fixed growth/decay multipliers. -/
def project (b : Baseline) (crewSize : ℚ) : Projections :=
  let s := scalingFactor crewSize
  { year1 :=
      { waste := b.waste * 365 * s / 1000
        methane := b.methane * 365 * s / 1000
        power := b.power * 365 * s / 1000
        efficiency := b.efficiency * 0.95 }
    year2 :=
      { waste := b.waste * 365 * s * 1.1 / 1000
        methane := b.methane * 365 * s * 1.15 / 1000
        power := b.power * 365 * s * 0.9 / 1000
        efficiency := b.efficiency * 0.98 }
    year3 :=
      { waste := b.waste * 365 * s * 1.2 / 1000
        methane := b.methane * 365 * s * 1.25 / 1000
        power := b.power * 365 * s * 0.85 / 1000
        efficiency := b.efficiency * 1.02 } }

/-- The three alerts `updateMetrics` can push. -/
inductive Alert where
  | efficiencyThreshold
  | powerThreshold
  | sensorDrift
  deriving DecidableEq

/-- The exact message string pushed for each alert. -/
def alertMessage : Alert → String
  | Alert.efficiencyThreshold =>
      "System efficiency below optimal threshold. Check catalyst status."
  | Alert.powerThreshold =>
      "Power consumption elevated. Consider load balancing."
  | Alert.sensorDrift =>
      "Predictive maintenance: Flow rate sensor drift detected."

/-- The alert block of `updateMetrics`: three independent checks pushed
in source order. The probabilistic check `Math.random() > 0.8` is passed
in as the boolean `driftDetected`. -/
def evaluateAlerts (efficiency power : ℚ) (driftDetected : Bool) : List Alert :=
  (if efficiency < 70 then [Alert.efficiencyThreshold] else []) ++
  (if power > 200 then [Alert.powerThreshold] else []) ++
  (if driftDetected then [Alert.sensorDrift] else [])

/-! ### Helper lemmas -/

/-- Closed form of the accumulated energy demand. -/
lemma energyNeeds_eq (comp : WasteComposition) :
    (simulateDecomposition comp).energyNeeds =
      2.3 * comp polymers + 1.8 * comp packaging + 3.1 * comp structuralResidues +
        1.2 * comp organics + 4.5 * comp metals := by
  simp [simulateDecomposition, categories, decompStep, energyRequirements,
    decompositionRates]
  ring

/-- Closed form of the accumulated methane output. -/
lemma methaneOutput_eq (comp : WasteComposition) :
    (simulateDecomposition comp).methaneOutput =
      0.4 * (0.85 * comp polymers + 0.78 * comp packaging +
        0.65 * comp structuralResidues + 0.92 * comp organics + 0.45 * comp metals) := by
  simp [simulateDecomposition, categories, decompStep, energyRequirements,
    decompositionRates]
  ring

/-- Closed form of the accumulated solid carbon output. -/
lemma carbonProduction_eq (comp : WasteComposition) :
    (simulateDecomposition comp).carbonProduction =
      0.3 * (0.85 * comp polymers + 0.78 * comp packaging +
        0.65 * comp structuralResidues + 0.92 * comp organics + 0.45 * comp metals) := by
  simp [simulateDecomposition, categories, decompStep, energyRequirements,
    decompositionRates]
  ring

/-- Closed form of the accumulated hydrogen output. -/
lemma hydrogenOutput_eq (comp : WasteComposition) :
    (simulateDecomposition comp).hydrogenOutput =
      0.15 * (0.85 * comp polymers + 0.78 * comp packaging +
        0.65 * comp structuralResidues + 0.92 * comp organics + 0.45 * comp metals) := by
  simp [simulateDecomposition, categories, decompStep, energyRequirements,
    decompositionRates]
  ring

/-- The cycle efficiency is the (unguarded) division of recovered fuel
energy by the energy demand. -/
lemma cycleEfficiency_def (comp : WasteComposition) :
    (simulateDecomposition comp).cycleEfficiency =
      jsDiv ((simulateDecomposition comp).methaneOutput * 50 +
          (simulateDecomposition comp).hydrogenOutput * 120)
        (simulateDecomposition comp).energyNeeds := rfl

/-- The sustainability score is `Math.min(100, cycleEfficiency * 1.2)`. -/
lemma sustainabilityScore_def (comp : WasteComposition) :
    (simulateDecomposition comp).sustainabilityScore =
      jsMin 100 ((simulateDecomposition comp).cycleEfficiency.mulFin 1.2) := rfl

/-- The prediction field is the cascading if/else chain of the source. -/
lemma runOptimization_prediction (p : ProcessParameters) (r1 r2 r3 : ℚ) :
    (runOptimization p r1 r2 r3).prediction =
      if p.temperature > 1300 then Prediction.highTempWarning
      else if p.catalystEfficiency < 85 then Prediction.lowCatalystAlert
      else if (runOptimization p r1 r2 r3).efficiency.gtConst 75 then Prediction.optimal
      else Prediction.suboptimal := rfl

/-! ### Claim theorems -/

/-- C1: For the all-zero waste composition the accumulated `energyNeeds`
is 0, but the source divides by it without a guard, so `cycleEfficiency`
is the JavaScript result `0 / 0 = NaN` — not the 0 the claim requires. -/
theorem c1_zero_composition_energy_zero_efficiency_nan :
    (simulateDecomposition zeroComposition).energyNeeds = 0 ∧
    (simulateDecomposition zeroComposition).cycleEfficiency = JSNum.nan ∧
    JSNum.nan ≠ JSNum.fin 0 := by
  refine ⟨?_, ?_, by simp⟩
  · rw [energyNeeds_eq]; norm_num [zeroComposition]
  · rw [cycleEfficiency_def, energyNeeds_eq, methaneOutput_eq, hydrogenOutput_eq]
    norm_num [zeroComposition, jsDiv]

/-- C6: The returned optimization record does not depend on the three
random "optimal target" draws: for every parameter object, any two
choices of the random values produce identical results in every field
(methaneYield, powerConsumption, efficiency, prediction, statusLabel). -/
theorem c6_optimizer_ignores_random_targets (p : ProcessParameters)
    (a1 a2 a3 b1 b2 b3 : ℚ) :
    runOptimization p a1 a2 a3 = runOptimization p b1 b2 b3 := rfl

/-- C7: `scalingFactor = crewSize / 4`, so with crew size 4 the factor is
1 and each period-1 annualized metric is `dailyBaseline.metric * 365 / 1000`;
with crew size 8 every period-1 annualized metric is exactly double its
crew-size-4 value. -/
theorem c7_projection_linear_in_crew_size :
    scalingFactor 4 = 1 ∧
    (∀ b : Baseline,
      (project b 4).year1.waste = b.waste * 365 / 1000 ∧
      (project b 4).year1.methane = b.methane * 365 / 1000 ∧
      (project b 4).year1.power = b.power * 365 / 1000) ∧
    (∀ b : Baseline,
      (project b 8).year1.waste = 2 * (project b 4).year1.waste ∧
      (project b 8).year1.methane = 2 * (project b 4).year1.methane ∧
      (project b 8).year1.power = 2 * (project b 4).year1.power) := by
  refine ⟨by norm_num [scalingFactor], fun b => ⟨?_, ?_, ?_⟩, fun b => ⟨?_, ?_, ?_⟩⟩ <;>
    simp [project, scalingFactor] <;> ring

/-- C9: `normalize` clamps every category value into [0, 100] and maps a
non-numeric or missing value (`none`) to 0; being a total function on
`Category`, its result carries exactly the five categories. -/
theorem c9_normalize_clamps_and_defaults (raw : Category → Option ℚ) :
    (∀ c, 0 ≤ normalize raw c ∧ normalize raw c ≤ 100) ∧
    (∀ c, raw c = none → normalize raw c = 0) := by
  constructor
  · intro c
    refine ⟨le_max_left 0 _, max_le (by norm_num) (min_le_left 100 _)⟩
  · intro c h
    simp [normalize, clampWasteValue, h]

/-- A raw composition with a missing value and out-of-range values, used
to instantiate C9. -/
def rawSample : Category → Option ℚ
  | polymers => none
  | packaging => some 150
  | structuralResidues => some (-5)
  | organics => some 42
  | metals => some 0

/-- C9 witness: the clamped bounds at a concrete raw mapping, and the
defaulting of its missing `polymers` entry to 0. -/
theorem c9_normalize_clamps_and_defaults_witness :
    (0 ≤ normalize rawSample packaging ∧ normalize rawSample packaging ≤ 100) ∧
    normalize rawSample polymers = 0 :=
  ⟨(c9_normalize_clamps_and_defaults rawSample).1 packaging,
   (c9_normalize_clamps_and_defaults rawSample).2 polymers rfl⟩

/-- C10: updating one category is frame-preserving — every other
category's percentage is returned exactly unchanged. -/
theorem c10_waste_update_frame (prev : WasteComposition) (c : Category)
    (v : Option ℚ) (c' : Category) (h : c' ≠ c) :
    handleWasteChange prev c v c' = prev c' := by
  simp [handleWasteChange, h]

/-- C10 witness: updating `polymers` leaves `metals` unchanged on the
default composition. -/
theorem c10_waste_update_frame_witness :
    handleWasteChange defaultWasteComposition polymers (some 50) metals =
      defaultWasteComposition metals :=
  c10_waste_update_frame defaultWasteComposition polymers (some 50) metals
    (by decide)

/-- C2: the diagnostic classification is a priority-ordered rule chain,
first match wins: temperature > 1300 gives HighTempWarning; otherwise
catalystEfficiency < 85 gives LowCatalystAlert; otherwise efficiency > 75
gives Optimal; otherwise Suboptimal. In particular any input with
temperature 1400 and catalystEfficiency 80 reports HighTempWarning,
never LowCatalystAlert. -/
theorem c2_prediction_rule_chain :
    (∀ (p : ProcessParameters) (r1 r2 r3 : ℚ), p.temperature > 1300 →
      (runOptimization p r1 r2 r3).prediction = Prediction.highTempWarning) ∧
    (∀ (p : ProcessParameters) (r1 r2 r3 : ℚ), ¬ p.temperature > 1300 →
      p.catalystEfficiency < 85 →
      (runOptimization p r1 r2 r3).prediction = Prediction.lowCatalystAlert) ∧
    (∀ (p : ProcessParameters) (r1 r2 r3 : ℚ), ¬ p.temperature > 1300 →
      ¬ p.catalystEfficiency < 85 →
      (runOptimization p r1 r2 r3).efficiency.gtConst 75 = true →
      (runOptimization p r1 r2 r3).prediction = Prediction.optimal) ∧
    (∀ (p : ProcessParameters) (r1 r2 r3 : ℚ), ¬ p.temperature > 1300 →
      ¬ p.catalystEfficiency < 85 →
      ¬ (runOptimization p r1 r2 r3).efficiency.gtConst 75 = true →
      (runOptimization p r1 r2 r3).prediction = Prediction.suboptimal) ∧
    (∀ (fr ei pr r1 r2 r3 : ℚ),
      (runOptimization ⟨1400, fr, 80, ei, pr⟩ r1 r2 r3).prediction =
        Prediction.highTempWarning) := by
  refine ⟨?_, ?_, ?_, ?_, ?_⟩
  · intro p r1 r2 r3 h1
    rw [runOptimization_prediction, if_pos h1]
  · intro p r1 r2 r3 h1 h2
    rw [runOptimization_prediction, if_neg h1, if_pos h2]
  · intro p r1 r2 r3 h1 h2 h3
    rw [runOptimization_prediction, if_neg h1, if_neg h2, if_pos h3]
  · intro p r1 r2 r3 h1 h2 h3
    rw [runOptimization_prediction, if_neg h1, if_neg h2, if_neg h3]
  · intro fr ei pr r1 r2 r3
    rw [runOptimization_prediction]
    norm_num

/-- C2 witness: all four outcomes of the rule chain at concrete inputs;
in particular temperature 1400 with catalystEfficiency 80 classifies as
HighTempWarning, not LowCatalystAlert. -/
theorem c2_prediction_rule_chain_witness :
    (runOptimization ⟨1400, 85, 80, 150, 2.5⟩ 0 0 0).prediction =
        Prediction.highTempWarning ∧
    (runOptimization ⟨1200, 85, 80, 150, 2.5⟩ 0 0 0).prediction =
        Prediction.lowCatalystAlert ∧
    (runOptimization ⟨1300, 100, 100, 50, 2.5⟩ 0 0 0).prediction =
        Prediction.optimal ∧
    (runOptimization ⟨1200, 85, 92, 150, 2.5⟩ 0 0 0).prediction =
        Prediction.suboptimal :=
  ⟨c2_prediction_rule_chain.1 ⟨1400, 85, 80, 150, 2.5⟩ 0 0 0 (by norm_num),
   c2_prediction_rule_chain.2.1 ⟨1200, 85, 80, 150, 2.5⟩ 0 0 0
     (by norm_num) (by norm_num),
   c2_prediction_rule_chain.2.2.1 ⟨1300, 100, 100, 50, 2.5⟩ 0 0 0
     (by norm_num) (by norm_num)
     (by norm_num [runOptimization, jsDiv, JSNum.mulFin, JSNum.gtConst]),
   c2_prediction_rule_chain.2.2.2.1 ⟨1200, 85, 92, 150, 2.5⟩ 0 0 0
     (by norm_num) (by norm_num)
     (by norm_num [runOptimization, jsDiv, JSNum.mulFin, JSNum.gtConst])⟩

/-- C3: the yield and power formulas hold verbatim, but the divide-by-zero
guard the claim asserts does not exist: at energyInput 0 the power
consumption is 0 and the source's `(methaneYield / powerConsumption) * 100`
evaluates to the JavaScript value Infinity, not to 0. -/
theorem c3_optimizer_formulas_but_no_zero_guard :
    (∀ (p : ProcessParameters) (r1 r2 r3 : ℚ),
      (runOptimization p r1 r2 r3).methaneYield =
        p.temperature / 1200 * (p.flowRate / 100) * (p.catalystEfficiency / 100) * 85 ∧
      (runOptimization p r1 r2 r3).powerConsumption =
        p.energyInput * (1 - p.catalystEfficiency / 100 * 0.3) ∧
      (runOptimization p r1 r2 r3).efficiency =
        (jsDiv (runOptimization p r1 r2 r3).methaneYield
          (runOptimization p r1 r2 r3).powerConsumption).mulFin 100) ∧
    (runOptimization ⟨1200, 85, 92, 0, 2.5⟩ 0 0 0).powerConsumption = 0 ∧
    (runOptimization ⟨1200, 85, 92, 0, 2.5⟩ 0 0 0).efficiency = JSNum.posInf ∧
    JSNum.posInf ≠ JSNum.fin 0 := by
  refine ⟨fun p r1 r2 r3 => ⟨rfl, rfl, rfl⟩, by norm_num [runOptimization],
    ?_, by simp⟩
  norm_num [runOptimization, jsDiv, JSNum.mulFin]

/-- C5: the decomposition follows the reference algorithm — each output
total is the sum over the five categories of
`(percentage / 100) * 100` (mass at the assumed 100 kg total) times the
per-category rate and yield fraction, and when `energyNeeds` is nonzero
the cycle efficiency is `(methane * 50 + hydrogen * 120) / energyNeeds`. -/
theorem c5_decomposition_reference_algorithm (comp : WasteComposition) :
    (simulateDecomposition comp).energyNeeds =
      (categories.map (fun c => comp c / 100 * 100 * energyRequirements c)).sum ∧
    (simulateDecomposition comp).methaneOutput =
      (categories.map
        (fun c => comp c / 100 * 100 * decompositionRates c * 0.4)).sum ∧
    (simulateDecomposition comp).carbonProduction =
      (categories.map
        (fun c => comp c / 100 * 100 * decompositionRates c * 0.3)).sum ∧
    (simulateDecomposition comp).hydrogenOutput =
      (categories.map
        (fun c => comp c / 100 * 100 * decompositionRates c * 0.15)).sum ∧
    ((simulateDecomposition comp).energyNeeds ≠ 0 →
      (simulateDecomposition comp).cycleEfficiency =
        JSNum.fin (((simulateDecomposition comp).methaneOutput * 50 +
            (simulateDecomposition comp).hydrogenOutput * 120) /
          (simulateDecomposition comp).energyNeeds)) := by
  refine ⟨?_, ?_, ?_, ?_, ?_⟩
  · rw [energyNeeds_eq]
    simp [categories, energyRequirements]
    ring
  · rw [methaneOutput_eq]
    simp [categories, decompositionRates]
    ring
  · rw [carbonProduction_eq]
    simp [categories, decompositionRates]
    ring
  · rw [hydrogenOutput_eq]
    simp [categories, decompositionRates]
    ring
  · intro hE
    rw [cycleEfficiency_def, jsDiv, if_neg hE]

/-- C5 witness: the default composition has nonzero energy demand, and
its cycle efficiency is the stated quotient. -/
theorem c5_decomposition_reference_algorithm_witness :
    (simulateDecomposition defaultWasteComposition).energyNeeds ≠ 0 ∧
    (simulateDecomposition defaultWasteComposition).cycleEfficiency =
      JSNum.fin (((simulateDecomposition defaultWasteComposition).methaneOutput * 50 +
          (simulateDecomposition defaultWasteComposition).hydrogenOutput * 120) /
        (simulateDecomposition defaultWasteComposition).energyNeeds) := by
  have hE : (simulateDecomposition defaultWasteComposition).energyNeeds ≠ 0 := by
    rw [energyNeeds_eq]; norm_num [defaultWasteComposition]
  exact ⟨hE,
    (c5_decomposition_reference_algorithm defaultWasteComposition).2.2.2.2 hE⟩

/-- C4 counterexample: the all-zero composition is valid (every
percentage is in [0, 100]), yet its sustainability score is
`Math.min(100, NaN * 1.2) = NaN` — not a finite number in [0, 100]. -/
theorem c4_counterexample_zero_composition_score :
    (simulateDecomposition zeroComposition).sustainabilityScore = JSNum.nan ∧
    ¬ (simulateDecomposition zeroComposition).sustainabilityScore.isFinIn 0 100 := by
  have hcyc : (simulateDecomposition zeroComposition).cycleEfficiency = JSNum.nan := by
    rw [cycleEfficiency_def, energyNeeds_eq, methaneOutput_eq, hydrogenOutput_eq]
    norm_num [zeroComposition, jsDiv]
  have hs : (simulateDecomposition zeroComposition).sustainabilityScore = JSNum.nan := by
    rw [sustainabilityScore_def, hcyc]
    rfl
  exact ⟨hs, by rw [hs]; simp [JSNum.isFinIn]⟩

/-- C4 (amended): for every valid composition all four mass/energy output
fields are nonnegative, and for every valid composition with at least one
positive percentage — so that the unguarded division is defined — the
cycle efficiency is a finite nonnegative number and the sustainability
score equals `cycleEfficiency * 1.2` clamped into [0, 100]. -/
theorem c4_valid_composition_invariants (comp : WasteComposition)
    (hvalid : ∀ c, 0 ≤ comp c ∧ comp c ≤ 100) :
    0 ≤ (simulateDecomposition comp).energyNeeds ∧
    0 ≤ (simulateDecomposition comp).methaneOutput ∧
    0 ≤ (simulateDecomposition comp).carbonProduction ∧
    0 ≤ (simulateDecomposition comp).hydrogenOutput ∧
    ((∃ c, 0 < comp c) → ∃ e : ℚ,
      (simulateDecomposition comp).cycleEfficiency = JSNum.fin e ∧
      0 ≤ e ∧
      (simulateDecomposition comp).sustainabilityScore =
        JSNum.fin (max 0 (min 100 (e * 1.2))) ∧
      (simulateDecomposition comp).sustainabilityScore.isFinIn 0 100) := by
  have h1 := (hvalid polymers).1
  have h2 := (hvalid packaging).1
  have h3 := (hvalid structuralResidues).1
  have h4 := (hvalid organics).1
  have h5 := (hvalid metals).1
  have hE : 0 ≤ (simulateDecomposition comp).energyNeeds := by
    rw [energyNeeds_eq]; linarith
  have hM : 0 ≤ (simulateDecomposition comp).methaneOutput := by
    rw [methaneOutput_eq]; linarith
  have hC : 0 ≤ (simulateDecomposition comp).carbonProduction := by
    rw [carbonProduction_eq]; linarith
  have hH : 0 ≤ (simulateDecomposition comp).hydrogenOutput := by
    rw [hydrogenOutput_eq]; linarith
  refine ⟨hE, hM, hC, hH, ?_⟩
  rintro ⟨c, hc⟩
  have hEpos : 0 < (simulateDecomposition comp).energyNeeds := by
    cases c <;> rw [energyNeeds_eq] <;> linarith
  set e := ((simulateDecomposition comp).methaneOutput * 50 +
    (simulateDecomposition comp).hydrogenOutput * 120) /
    (simulateDecomposition comp).energyNeeds with he_def
  have hcyc : (simulateDecomposition comp).cycleEfficiency = JSNum.fin e := by
    rw [cycleEfficiency_def, jsDiv, if_neg (ne_of_gt hEpos)]
  have he : 0 ≤ e := div_nonneg (by linarith) hE
  have hmin : (0 : ℚ) ≤ min 100 (e * 1.2) :=
    le_min (by norm_num) (mul_nonneg he (by norm_num))
  have hscore : (simulateDecomposition comp).sustainabilityScore =
      JSNum.fin (max 0 (min 100 (e * 1.2))) := by
    rw [sustainabilityScore_def, hcyc, max_eq_right hmin]
    rfl
  refine ⟨e, hcyc, he, hscore, ?_⟩
  rw [hscore]
  exact ⟨le_max_left 0 _, max_le (by norm_num) (min_le_left 100 _)⟩

/-- C4 witness: the invariants instantiated at the default composition,
which is valid and has a positive `polymers` percentage. -/
theorem c4_valid_composition_invariants_witness :
    0 ≤ (simulateDecomposition defaultWasteComposition).energyNeeds ∧
    0 ≤ (simulateDecomposition defaultWasteComposition).methaneOutput ∧
    0 ≤ (simulateDecomposition defaultWasteComposition).carbonProduction ∧
    0 ≤ (simulateDecomposition defaultWasteComposition).hydrogenOutput ∧
    (simulateDecomposition defaultWasteComposition).sustainabilityScore.isFinIn 0 100 := by
  have h := c4_valid_composition_invariants defaultWasteComposition
    (by intro c; cases c <;> norm_num [defaultWasteComposition])
  obtain ⟨e, -, -, -, hfin⟩ :=
    h.2.2.2.2 ⟨polymers, by norm_num [defaultWasteComposition]⟩
  exact ⟨h.1, h.2.1, h.2.2.1, h.2.2.2.1, hfin⟩

/-- C8: the alert rules are independent threshold checks, not a chain:
the efficiency alert fires exactly when efficiency < 70 and the power
alert exactly when power > 200, each regardless of the other condition
and of the probabilistic drift check; at efficiency 65 and power 150
every invocation includes the efficiency alert and never the power
alert, whatever the drift draw. -/
theorem c8_alerts_independent_thresholds :
    (∀ (e p : ℚ) (d : Bool),
      Alert.efficiencyThreshold ∈ evaluateAlerts e p d ↔ e < 70) ∧
    (∀ (e p : ℚ) (d : Bool),
      Alert.powerThreshold ∈ evaluateAlerts e p d ↔ p > 200) ∧
    (∀ d : Bool,
      Alert.efficiencyThreshold ∈ evaluateAlerts 65 150 d ∧
      Alert.powerThreshold ∉ evaluateAlerts 65 150 d) := by
  have key : ∀ (e p : ℚ) (d : Bool),
      (Alert.efficiencyThreshold ∈ evaluateAlerts e p d ↔ e < 70) ∧
      (Alert.powerThreshold ∈ evaluateAlerts e p d ↔ p > 200) := by
    intro e p d
    by_cases h1 : e < 70 <;> by_cases h2 : p > 200 <;> cases d <;>
      simp [evaluateAlerts, h1, h2]
  refine ⟨fun e p d => (key e p d).1, fun e p d => (key e p d).2, fun d => ?_⟩
  exact ⟨(key 65 150 d).1.mpr (by norm_num),
    fun hmem => absurd ((key 65 150 d).2.mp hmem) (by norm_num)⟩

end Prometheus
